import Mathlib

/-!
Verification of the RiskReport quantitative risk engine.

The Python sources are shallowly embedded over ℚ.  Machine floats are
modelled as exact rationals; values that the code obtains from scipy or
numpy as numerical oracles (normal quantiles Φ⁻¹, normal densities φ,
square roots) are passed to the embedded functions as explicit parameters,
exactly as the Python functions receive them from library calls.
-/

namespace RiskReport

open scoped Matrix

/-- Mean of a possibly empty array, as computed by numpy: the mean of an
empty array is NaN, modelled here as `none`. -/
def npMean (xs : List ℚ) : Option ℚ :=
  if xs.isEmpty then none else some (xs.sum / xs.length)

/-! ## Parametric VaR, src/risk_engine/var_models/Parametric.py

`parametric_var` (normal branch, lines 207-216):
  z = norm.ppf(1 - confidence_level)
  var = -(mu * time_horizon + z * sigma * np.sqrt(time_horizon)) * portfolio_value
  normal_density = norm.pdf(z)
  cvar = -(mu * time_horizon - sigma * np.sqrt(time_horizon) * normal_density
            / (1 - confidence_level)) * portfolio_value

The scipy values are parameters: `q` stands for norm.ppf(1 - c), `sqrtH` for
np.sqrt(time_horizon) and `pdfz` for norm.pdf(q); since the standard normal
density is even, pdfz is also the density at the upper quantile Φ⁻¹(c). -/

namespace Parametric

/-- VaR of the normal branch of Parametric.parametric_var. -/
def parametric_var_normal (mu sigma V h q sqrtH : ℚ) : ℚ :=
  -(mu * h + q * sigma * sqrtH) * V

/-- CVaR of the normal branch of Parametric.parametric_var. -/
def parametric_cvar_normal (mu sigma V h c pdfz sqrtH : ℚ) : ℚ :=
  -(mu * h - sigma * sqrtH * pdfz / (1 - c)) * V

end Parametric

/-! ## Client parametric VaR, src/client/VAR Model/VaR_methods.py

`parametric_var` (lines 54-57):
  z_score = norm.ppf(confidence_level)
  var = portfolio_value * (z_score * sigma * np.sqrt(time_horizon) - mu * time_horizon)
-/

namespace VaRMethods

/-- VaR of VaR_methods.parametric_var; `z` stands for norm.ppf(confidence_level). -/
def parametric_var (mu sigma V h z sqrtH : ℚ) : ℚ :=
  V * (z * sigma * sqrtH - mu * h)

end VaRMethods

/-! ## Portfolio parametric VaR, src/risk_engine/var_models/portfolio_var.py

`calculate_parametric_var` (lines 134-155):
  portfolio_return = np.sum(mean_returns * portfolio_weights) * time_horizon
  portfolio_volatility = np.sqrt(w.T @ cov @ w) * np.sqrt(time_horizon)
  z_score = norm.ppf(confidence_level)
  var_value = portfolio_value * (z_score * portfolio_volatility - portfolio_return)
  var_percentage = (z_score * portfolio_volatility - portfolio_return) * 100
  pdf_z = norm.pdf(z_score)
  cvar_percentage = var_percentage + (pdf_z / (1 - confidence_level)) * portfolio_volatility * 100
  cvar_value = portfolio_value * cvar_percentage / 100

`sqrtQuad` stands for np.sqrt(w.T @ cov @ w) and `sqrtH` for np.sqrt(h). -/

namespace PortfolioVar

/-- Result record of PortfolioVar.calculate_parametric_var. -/
structure ParametricResult where
  varValue : ℚ
  varPercentage : ℚ
  cvarValue : ℚ
  cvarPercentage : ℚ

/-- Embedding of portfolio_var.calculate_parametric_var over the weighted
mean vector; the sample covariance quadratic form enters through its
square root oracle sqrtQuad. -/
def calculate_parametric_var {k : ℕ} (meanReturns w : Fin k → ℚ)
    (V c h z pdfz sqrtQuad sqrtH : ℚ) : ParametricResult :=
  let pret := (∑ i, meanReturns i * w i) * h
  let vol := sqrtQuad * sqrtH
  let varPct := (z * vol - pret) * 100
  let cvarPct := varPct + pdfz / (1 - c) * vol * 100
  { varValue := V * (z * vol - pret)
    varPercentage := varPct
    cvarValue := V * cvarPct / 100
    cvarPercentage := cvarPct }

end PortfolioVar

/-! ## Claim C5: the parametric normal VaR closed form -/

/-- C5: for the parametric method with the normal distribution, the returned
VaR equals V·(z·σ·√h − μ·h) with z = Φ⁻¹(c). This holds in all three
parametric implementations: Parametric.parametric_var calls
norm.ppf(1 − c), whose value q satisfies q = −z by the point symmetry of
the standard normal quantile, while the other two call norm.ppf(c)
directly. -/
theorem parametric_normal_var_closed_form {k : ℕ}
    (mu sigma V c h z q pdfz sqrtQuad sqrtH : ℚ)
    (meanReturns w : Fin k → ℚ)
    (hq : q = -z) :
    Parametric.parametric_var_normal mu sigma V h q sqrtH
        = V * (z * sigma * sqrtH - mu * h)
      ∧ VaRMethods.parametric_var mu sigma V h z sqrtH
        = V * (z * sigma * sqrtH - mu * h)
      ∧ (PortfolioVar.calculate_parametric_var meanReturns w
            V c h z pdfz sqrtQuad sqrtH).varValue
        = V * (z * (sqrtQuad * sqrtH) - (∑ i, meanReturns i * w i) * h) := by
  subst hq
  refine ⟨?_, ?_, ?_⟩
  · unfold Parametric.parametric_var_normal
    ring
  · rfl
  · unfold PortfolioVar.calculate_parametric_var
    ring

/-- Witness for C5 at concrete oracle values mu = 1/1000, sigma = 1/100,
V = 1000, c = 19/20, h = 1, z = 2, q = −2. -/
theorem parametric_normal_var_closed_form_witness :
    Parametric.parametric_var_normal (1/1000) (1/100) 1000 1 (-2) 1
        = 1000 * (2 * (1/100) * 1 - (1/1000) * 1)
      ∧ VaRMethods.parametric_var (1/1000) (1/100) 1000 1 2 1
        = 1000 * (2 * (1/100) * 1 - (1/1000) * 1)
      ∧ (PortfolioVar.calculate_parametric_var (fun _ : Fin 1 => 1/1000)
            (fun _ => 1) 1000 (19/20) 1 2 (1/20) (1/100) 1).varValue
        = 1000 * (2 * ((1/100) * 1) - (∑ _i : Fin 1, (1/1000 : ℚ) * 1) * 1) :=
  parametric_normal_var_closed_form (1/1000) (1/100) 1000 (19/20) 1 2 (-2)
    (1/20) (1/100) 1 (fun _ => 1/1000) (fun _ => 1) (by norm_num)

/-! ## Claim C1: the parametric normal CVaR relation

The claimed relation CVaR = VaR + V·σ·√h·φ(z)/(1−c) holds in
portfolio_var.calculate_parametric_var, but not in
Parametric.parametric_var: the latter returns the expected-shortfall
closed form V·(σ·√h·φ(z)/(1−c) − μ·h), which differs from the claimed
value by −V·z·σ·√h. -/

/-- C1 counterexample: the claimed CVaR relation is false for
Parametric.parametric_var. At mu = 0, sigma = 1, V = 1, c = 19/20, h = 1,
with oracle values z = 2, q = −2, pdfz = 1/20, the code returns CVaR = 1
while VaR + V·σ·√h·φ(z)/(1−c) = 3; the gap −V·z·σ·√h is nonzero whenever
z, σ, V are (and the true Φ⁻¹(19/20) ≈ 1.645 is nonzero). -/
theorem parametric_normal_cvar_claim_false :
    ¬ (∀ mu sigma V c h z q pdfz sqrtH : ℚ, q = -z →
        Parametric.parametric_cvar_normal mu sigma V h c pdfz sqrtH
          = Parametric.parametric_var_normal mu sigma V h q sqrtH
              + V * sigma * sqrtH * pdfz / (1 - c)) := by
  intro hclaim
  have h := hclaim 0 1 1 (19/20) 1 2 (-2) (1/20) 1 (by norm_num)
  unfold Parametric.parametric_cvar_normal Parametric.parametric_var_normal at h
  norm_num at h

/-- C1 amended: in portfolio_var.calculate_parametric_var the returned CVaR
equals VaR + V·σ·√h·φ(z)/(1−c) exactly as claimed; in
Parametric.parametric_var the returned CVaR instead equals
VaR + V·σ·√h·(φ(z)/(1−c) − z), with z = Φ⁻¹(c) entering the code as
q = Φ⁻¹(1−c) = −z. -/
theorem parametric_normal_cvar_relation {k : ℕ}
    (mu sigma V c h z q pdfz sqrtQuad sqrtH : ℚ)
    (meanReturns w : Fin k → ℚ)
    (hq : q = -z) :
    (PortfolioVar.calculate_parametric_var meanReturns w
          V c h z pdfz sqrtQuad sqrtH).cvarValue
        = (PortfolioVar.calculate_parametric_var meanReturns w
            V c h z pdfz sqrtQuad sqrtH).varValue
          + V * sqrtQuad * sqrtH * pdfz / (1 - c)
      ∧ Parametric.parametric_cvar_normal mu sigma V h c pdfz sqrtH
        = Parametric.parametric_var_normal mu sigma V h q sqrtH
          + V * sigma * sqrtH * (pdfz / (1 - c) - z) := by
  subst hq
  constructor
  · unfold PortfolioVar.calculate_parametric_var
    ring
  · unfold Parametric.parametric_cvar_normal Parametric.parametric_var_normal
    ring

/-- Witness for C1 at the same concrete oracle values as the C5 witness. -/
theorem parametric_normal_cvar_relation_witness :
    (PortfolioVar.calculate_parametric_var (fun _ : Fin 1 => (1/1000 : ℚ))
          (fun _ => 1) 1000 (19/20) 1 2 (1/20) (1/100) 1).cvarValue
        = (PortfolioVar.calculate_parametric_var (fun _ : Fin 1 => (1/1000 : ℚ))
            (fun _ => 1) 1000 (19/20) 1 2 (1/20) (1/100) 1).varValue
          + 1000 * (1/100) * 1 * (1/20) / (1 - 19/20)
      ∧ Parametric.parametric_cvar_normal (1/1000) (1/100) 1000 1 (19/20) (1/20) 1
        = Parametric.parametric_var_normal (1/1000) (1/100) 1000 1 (-2) 1
          + 1000 * (1/100) * 1 * ((1/20) / (1 - 19/20) - 2) :=
  parametric_normal_cvar_relation (1/1000) (1/100) 1000 (19/20) 1 2 (-2)
    (1/20) (1/100) 1 (fun _ => 1/1000) (fun _ => 1) (by norm_num)

/-! ## Historical VaR loss samples

Three implementations build the historical loss sample:

portfolio_var.calculate_historical_var (lines 184-197):
  portfolio_returns = np.dot(returns, portfolio_weights)
  if time_horizon > 1:
      for i in range(len(portfolio_returns) - time_horizon + 1):
          horizon_return = np.prod(1 + portfolio_returns.iloc[i:i + time_horizon]) - 1
  portfolio_losses = -portfolio_returns * portfolio_value

VaR_methods.historical_var (lines 69-95) compounds the same overlapping
windows and sets portfolio_losses = portfolio_value * -scaled_returns.

Historical.historical_var (risk_engine, lines 148-164):
  scaled_returns = portfolio_returns * np.sqrt(time_horizon)
  losses = -scaled_returns * portfolio_value
-/

namespace PortfolioVar

/-- Weighted per-date portfolio returns, np.dot(returns, weights). -/
def portfolio_returns_dot {k : ℕ} (returns : List (Fin k → ℚ)) (w : Fin k → ℚ) : List ℚ :=
  returns.map (fun row => ∑ i, row i * w i)

/-- Overlapping-window horizon returns of calculate_historical_var:
np.prod(1 + rs[i : i + h]) - 1 for i in range(len(rs) - h + 1). -/
def horizon_returns (rs : List ℚ) (h : ℕ) : List ℚ :=
  (List.range (rs.length + 1 - h)).map
    (fun i => ((rs.drop i).take h).foldl (fun a r => a * (1 + r)) 1 - 1)

/-- Loss sample of calculate_historical_var. -/
def historical_losses (rs : List ℚ) (V : ℚ) (h : ℕ) : List ℚ :=
  (if 1 < h then horizon_returns rs h else rs).map (fun r => -r * V)

end PortfolioVar

namespace VaRMethods

/-- Loss sample of the client historical_var; its window loop is
textually the same as in portfolio_var, and the losses are written
portfolio_value * -scaled_returns. -/
def historical_losses (rs : List ℚ) (V : ℚ) (h : ℕ) : List ℚ :=
  (if 1 < h then PortfolioVar.horizon_returns rs h else rs).map (fun r => V * -r)

end VaRMethods

namespace HistoricalRE

/-- Loss sample of Historical.historical_var in the risk engine; sqrtH
stands for np.sqrt(time_horizon). -/
def historical_losses (rs : List ℚ) (V sqrtH : ℚ) : List ℚ :=
  rs.map (fun r => -(r * sqrtH) * V)

end HistoricalRE

/-- Loss sample the claim mandates for horizon h: one loss per valid start
index i, equal to −(Π_{k=i}^{i+h−1}(1+r_k) − 1)·V. Stated with a Finset
product, independently of the fold used by the code. -/
def specCompoundedLosses (rs : List ℚ) (V : ℚ) (h : ℕ) : List ℚ :=
  (List.range (rs.length + 1 - h)).map
    (fun i => -((∏ k ∈ Finset.range h, (1 + rs.getD (i + k) 0)) - 1) * V)

/-- Folding multiplication of (1 + r) over a list equals the product of the
mapped list. -/
theorem foldl_one_add_mul (l : List ℚ) (a : ℚ) :
    l.foldl (fun acc r => acc * (1 + r)) a = a * (l.map (fun r => 1 + r)).prod := by
  induction l generalizing a with
  | nil => simp
  | cons x xs ih => simp [List.foldl_cons, ih, mul_assoc]

/-- The product over a length-h slice starting at i equals the indexed
product over the window [i, i+h). -/
theorem slice_prod_eq_window_prod (rs : List ℚ) :
    ∀ (h i : ℕ), i + h ≤ rs.length →
      (((rs.drop i).take h).map (fun r => 1 + r)).prod
        = ∏ k ∈ Finset.range h, (1 + rs.getD (i + k) 0) := by
  intro h
  induction h with
  | zero => intro i _; simp
  | succ n ih =>
      intro i hih
      have hi : i < rs.length := by omega
      have hdrop : rs.drop i = rs.get ⟨i, hi⟩ :: rs.drop (i + 1) := by
        rw [List.drop_eq_getElem_cons hi]
        rfl
      rw [hdrop]
      simp only [List.take_succ_cons, List.map_cons, List.prod_cons]
      rw [ih (i + 1) (by omega), Finset.prod_range_succ']
      have hget : rs.getD (i + 0) 0 = rs.get ⟨i, hi⟩ := by
        simp [List.getD_eq_getElem?_getD, List.getElem?_eq_getElem hi]
      rw [hget]
      rw [mul_comm]
      congr 1
      exact Finset.prod_congr rfl fun k _ => by rw [show i + (k + 1) = i + 1 + k by omega]

/-- C2 amended: for h > 1 the loss samples of
portfolio_var.calculate_historical_var and of the client historical_var
are exactly the compounded overlapping-window sample the claim describes;
the risk-engine Historical.historical_var is excluded, since it scales
single-period returns by √h instead (see the counterexample). -/
theorem historical_multiday_loss_sample (rs : List ℚ) (V : ℚ) (h : ℕ)
    (hh : 1 < h) :
    PortfolioVar.historical_losses rs V h = specCompoundedLosses rs V h
      ∧ VaRMethods.historical_losses rs V h = specCompoundedLosses rs V h := by
  unfold PortfolioVar.historical_losses VaRMethods.historical_losses
    specCompoundedLosses PortfolioVar.horizon_returns
  rw [if_pos hh, List.map_map, List.map_map]
  constructor <;>
  · refine List.map_congr_left fun i hi => ?_
    have hmem : i + h ≤ rs.length := by
      have := List.mem_range.mp hi
      omega
    simp only [Function.comp_apply]
    rw [foldl_one_add_mul, one_mul, slice_prod_eq_window_prod rs h i hmem]
    try ring

/-- Witness for C2 at rs = [1/10, −1/10, 1/20], V = 10, h = 2. -/
theorem historical_multiday_loss_sample_witness :
    PortfolioVar.historical_losses [1/10, -1/10, 1/20] 10 2
        = specCompoundedLosses [1/10, -1/10, 1/20] 10 2
      ∧ VaRMethods.historical_losses [1/10, -1/10, 1/20] 10 2
        = specCompoundedLosses [1/10, -1/10, 1/20] 10 2 :=
  historical_multiday_loss_sample [1/10, -1/10, 1/20] 10 2 (by norm_num)

/-- C2 counterexample: the risk-engine Historical.historical_var does not
compound overlapping windows. On the return series [1/10, 1/10, 1/10, 1/10]
with V = 100 and h = 4 (np.sqrt(4) = 2 exactly), the code produces the
four losses −(r·√h)·V = −20 each, while the compounded overlapping-window
sample of the claim is the single loss −100·(1.1⁴ − 1) = −4641/100. -/
theorem historical_multiday_scaling_claim_false :
    HistoricalRE.historical_losses [1/10, 1/10, 1/10, 1/10] 100 2
      ≠ specCompoundedLosses [1/10, 1/10, 1/10, 1/10] 100 4 := by
  simp only [HistoricalRE.historical_losses, specCompoundedLosses, List.map_cons,
    List.map_nil, List.length_cons, List.length_nil, List.range_succ, List.range_zero,
    Finset.prod_range_succ, Finset.prod_range_zero, List.getD, List.append_nil,
    List.nil_append, List.getElem?_cons_zero, List.getElem?_cons_succ]
  norm_num

/-! ## Correlated Monte Carlo, src/risk_engine/var_models/MonteCarlo.py

`monte_carlo_var_cholesky` (lines 179-206):
  np.random.seed(42)
  Z = np.random.normal(0, 1, (num_assets, num_simulations))
  mu_expanded = np.tile(mu.reshape(-1, 1), (1, num_simulations))
  correlated_returns = mu_expanded * time_horizon + L @ Z * np.sqrt(time_horizon)
  portfolio_returns = weights @ correlated_returns
  simulated_portfolio_values = current_value * (1 + portfolio_returns)
  portfolio_losses = current_value - simulated_portfolio_values
  var = np.percentile(portfolio_losses, confidence_level * 100)
  cvar = portfolio_losses[portfolio_losses >= var].mean()
-/

namespace MonteCarloChol

/-- Correlated asset-return matrix mu_expanded * h + L @ Z * np.sqrt(h);
sqrtH stands for np.sqrt(time_horizon). -/
def correlated_returns {a s : ℕ} (mu : Fin a → ℚ) (L : Matrix (Fin a) (Fin a) ℚ)
    (Z : Matrix (Fin a) (Fin s) ℚ) (h sqrtH : ℚ) : Matrix (Fin a) (Fin s) ℚ :=
  Matrix.of fun i j => mu i * h + (L * Z) i j * sqrtH

/-- Per-trial portfolio returns, weights @ correlated_returns. -/
def portfolio_sim_returns {a s : ℕ} (w : Fin a → ℚ)
    (R : Matrix (Fin a) (Fin s) ℚ) : Fin s → ℚ :=
  Matrix.vecMul w R

/-- Per-trial losses current_value - current_value * (1 + portfolio_return). -/
def trial_losses {a s : ℕ} (mu : Fin a → ℚ) (L : Matrix (Fin a) (Fin a) ℚ)
    (Z : Matrix (Fin a) (Fin s) ℚ) (w : Fin a → ℚ) (V h sqrtH : ℚ) : Fin s → ℚ :=
  fun j => V - V * (1 + portfolio_sim_returns w (correlated_returns mu L Z h sqrtH) j)

end MonteCarloChol

namespace PortfolioVar

/-- correlated_random = mean_returns.reshape(-1, 1) + np.dot(L, Z)
(portfolio_var.py line 261): no horizon scaling at this point. -/
def correlated_random {a s : ℕ} (mu : Fin a → ℚ) (L : Matrix (Fin a) (Fin a) ℚ)
    (Z : Matrix (Fin a) (Fin s) ℚ) : Matrix (Fin a) (Fin s) ℚ :=
  Matrix.of fun i j => mu i + (L * Z) i j

/-- simulated_returns[j] = np.sum(asset_returns * weights) * time_horizon
(portfolio_var.py line 268): the whole trial return, stochastic part
included, is scaled linearly by the horizon. -/
def mc_sim_returns {a s : ℕ} (mu : Fin a → ℚ) (L : Matrix (Fin a) (Fin a) ℚ)
    (Z : Matrix (Fin a) (Fin s) ℚ) (w : Fin a → ℚ) (h : ℚ) : Fin s → ℚ :=
  fun j => (∑ i, correlated_random mu L Z i j * w i) * h

/-- portfolio_losses = -simulated_returns * portfolio_value (line 272). -/
def mc_losses {a s : ℕ} (mu : Fin a → ℚ) (L : Matrix (Fin a) (Fin a) ℚ)
    (Z : Matrix (Fin a) (Fin s) ℚ) (w : Fin a → ℚ) (V h : ℚ) : Fin s → ℚ :=
  fun j => -(mc_sim_returns mu L Z w h j) * V

end PortfolioVar

/-- Trial loss exactly as the claim states it:
V·(1 − (1 + weightsᵀ·(μ⃗·h + L·Z·√h))) for each trial column. -/
def specCholTrialLoss {a s : ℕ} (mu : Fin a → ℚ) (L : Matrix (Fin a) (Fin a) ℚ)
    (Z : Matrix (Fin a) (Fin s) ℚ) (w : Fin a → ℚ) (V h sqrtH : ℚ) : Fin s → ℚ :=
  fun j => V * (1 - (1 + ∑ i, w i * (mu i * h + (∑ k, L i k * Z k j) * sqrtH)))

/-- C3 amended: in MonteCarlo.monte_carlo_var_cholesky the simulated
asset-return matrix is μ⃗·h + L·Z·√h entrywise, each trial portfolio
return is weightsᵀ·R, and each trial loss is V·(1 − (1 + portfolio_return)),
exactly as claimed; in portfolio_var.calculate_monte_carlo_var, however,
the asset-return matrix is μ⃗ + L·Z and the trial loss is
−V·h·weightsᵀ·(μ⃗ + L·Z): the stochastic term is scaled linearly by h
rather than by √h (see the counterexample). -/
theorem monte_carlo_cholesky_return_model {a s : ℕ} (mu : Fin a → ℚ)
    (L : Matrix (Fin a) (Fin a) ℚ) (Z R : Matrix (Fin a) (Fin s) ℚ)
    (w : Fin a → ℚ) (V h sqrtH : ℚ) (i : Fin a) (j : Fin s) :
    MonteCarloChol.correlated_returns mu L Z h sqrtH i j
        = mu i * h + (∑ k, L i k * Z k j) * sqrtH
      ∧ MonteCarloChol.portfolio_sim_returns w R j = ∑ i, w i * R i j
      ∧ MonteCarloChol.trial_losses mu L Z w V h sqrtH j
        = specCholTrialLoss mu L Z w V h sqrtH j
      ∧ PortfolioVar.mc_losses mu L Z w V h j
        = -(V * h * (∑ i, w i * (mu i + ∑ k, L i k * Z k j))) := by
  refine ⟨?_, ?_, ?_, ?_⟩
  · simp [MonteCarloChol.correlated_returns, Matrix.mul_apply]
  · simp [MonteCarloChol.portfolio_sim_returns, Matrix.vecMul, Matrix.dotProduct]
  · unfold MonteCarloChol.trial_losses specCholTrialLoss
      MonteCarloChol.portfolio_sim_returns MonteCarloChol.correlated_returns
    simp only [Matrix.vecMul, Matrix.dotProduct, Matrix.of_apply, Matrix.mul_apply]
    ring
  · unfold PortfolioVar.mc_losses PortfolioVar.mc_sim_returns
      PortfolioVar.correlated_random
    simp only [Matrix.of_apply, Matrix.mul_apply]
    rw [show (∑ i, (mu i + ∑ k, L i k * Z k j) * w i)
          = ∑ i, w i * (mu i + ∑ k, L i k * Z k j) from
        Finset.sum_congr rfl fun i _ => mul_comm _ _]
    ring

/-- C3 counterexample: in portfolio_var.calculate_monte_carlo_var with one
asset, one trial, μ = 1, L = Z = w = 1, V = 1, h = 4 (√h = 2), the code
produces the trial loss −(1 + 1)·4 = −8, whereas the claimed model
V·(1 − (1 + wᵀ(μh + LZ√h))) gives 1 − 7 = −6. -/
theorem monte_carlo_horizon_scaling_claim_false :
    PortfolioVar.mc_losses (fun _ : Fin 1 => (1 : ℚ)) (Matrix.of fun _ _ => 1)
        (Matrix.of fun _ _ => 1) (fun _ => 1) 1 4 (0 : Fin 1)
      ≠ specCholTrialLoss (fun _ : Fin 1 => (1 : ℚ)) (Matrix.of fun _ _ => 1)
        (Matrix.of fun _ _ => 1) (fun _ => 1) 1 4 2 (0 : Fin 1) := by
  simp only [PortfolioVar.mc_losses, PortfolioVar.mc_sim_returns,
    PortfolioVar.correlated_random, specCholTrialLoss, Matrix.of_apply,
    Matrix.mul_apply, Fin.sum_univ_one]
  norm_num

/-! ## Claim C7: seeded reproducibility of the correlated Monte Carlo run

The run re-seeds the global numpy generator with the literal 42 before
drawing (MonteCarlo.py line 180). The generator is modelled by a
deterministic draw function of the seeded state, and np.percentile by a
deterministic function of the loss sample; both are parameters of the
embedding, so the theorem holds for the actual numpy implementations. -/

namespace MonteCarloChol

/-- np.random.seed(k): the ambient generator state is discarded and replaced
by the state determined by the seed alone. -/
def npSeed (_ambient : ℕ) (k : ℕ) : ℕ := k

/-- Output triple of monte_carlo_var_cholesky that the claim talks about. -/
structure MCOutput where
  var : ℚ
  cvar : Option ℚ
  losses : List ℚ

/-- Embedding of the simulation core of monte_carlo_var_cholesky: seed,
draw Z, build the loss sample, take the percentile, and average the tail
(numpy mean of an empty selection is NaN, hence the Option). -/
def monte_carlo_var_cholesky_run {a s : ℕ}
    (gen : ℕ → Fin a → Fin s → ℚ) (pct : List ℚ → ℚ → ℚ)
    (mu : Fin a → ℚ) (L : Matrix (Fin a) (Fin a) ℚ) (w : Fin a → ℚ)
    (V c h sqrtH : ℚ) (ambient : ℕ) : MCOutput :=
  let st := npSeed ambient 42
  let Z : Matrix (Fin a) (Fin s) ℚ := Matrix.of fun i j => gen st i j
  let losses := (List.finRange s).map (trial_losses mu L Z w V h sqrtH)
  let varv := pct losses (c * 100)
  { var := varv
    cvar := npMean (losses.filter (fun l => varv ≤ l))
    losses := losses }

end MonteCarloChol

/-- C7: two executions of the correlated Monte Carlo calculation on
identical inputs produce bit-identical VaR, CVaR and loss-sample outputs,
whatever generator states the two executions start from, because the run
re-seeds the generator with the same fixed seed before drawing. -/
theorem monte_carlo_seeded_reproducibility {a s : ℕ}
    (gen : ℕ → Fin a → Fin s → ℚ) (pct : List ℚ → ℚ → ℚ)
    (mu : Fin a → ℚ) (L : Matrix (Fin a) (Fin a) ℚ) (w : Fin a → ℚ)
    (V c h sqrtH : ℚ) (ambient₁ ambient₂ : ℕ) :
    MonteCarloChol.monte_carlo_var_cholesky_run gen pct mu L w V c h sqrtH ambient₁
      = MonteCarloChol.monte_carlo_var_cholesky_run gen pct mu L w V c h sqrtH ambient₂ :=
  rfl

/-! ## Claim C6: CVaR of a loss sample, and the empty-tail case

portfolio_var.py (lines 203-205 and 278-281):
  extreme_losses = portfolio_losses[portfolio_losses >= var_value]
  cvar_value = extreme_losses.mean() if len(extreme_losses) > 0 else var_value

Historical.py line 162 and MonteCarlo.py line 206:
  cvar = losses[losses >= var].mean()        (no fallback)
-/

namespace PortfolioVar

/-- CVaR from a loss sample and threshold with the explicit empty-tail
fallback, as in calculate_historical_var and calculate_monte_carlo_var. -/
def cvar_with_fallback (losses : List ℚ) (varv : ℚ) : ℚ :=
  let extreme := losses.filter (fun l => varv ≤ l)
  if 0 < extreme.length then extreme.sum / extreme.length else varv

end PortfolioVar

namespace HistoricalRE

/-- CVaR as the bare tail mean, as in Historical.historical_var and
MonteCarlo.monte_carlo_var_cholesky: numpy returns NaN (none) when no loss
reaches the threshold. -/
def cvar_tail_mean (losses : List ℚ) (varv : ℚ) : Option ℚ :=
  npMean (losses.filter (fun l => varv ≤ l))

end HistoricalRE

/-- C6 amended: for every loss sample and threshold, both CVaR computations
return the mean of the losses ≥ VaR whenever that tail is nonempty; when
the tail is empty, calculate_historical_var and calculate_monte_carlo_var
in portfolio_var.py fall back to VaR as the claim demands, but
Historical.historical_var and MonteCarlo.monte_carlo_var_cholesky return
the undefined numpy mean (NaN) instead of VaR. -/
theorem cvar_tail_mean_and_fallback (losses : List ℚ) (varv : ℚ) :
    PortfolioVar.cvar_with_fallback losses varv
        = (if (losses.filter (fun l => varv ≤ l)).isEmpty then varv
           else (losses.filter (fun l => varv ≤ l)).sum
                  / (losses.filter (fun l => varv ≤ l)).length)
      ∧ HistoricalRE.cvar_tail_mean losses varv
        = (if (losses.filter (fun l => varv ≤ l)).isEmpty then none
           else some ((losses.filter (fun l => varv ≤ l)).sum
                  / (losses.filter (fun l => varv ≤ l)).length)) := by
  constructor
  · unfold PortfolioVar.cvar_with_fallback
    rcases Decidable.em ((losses.filter (fun l => varv ≤ l)).isEmpty) with he | he
    · rw [if_pos he, if_neg]
      simp only [List.isEmpty_iff] at he
      simp [he]
    · rw [if_neg he, if_pos]
      simp only [List.isEmpty_iff] at he
      simpa [List.length_pos] using he
  · unfold HistoricalRE.cvar_tail_mean npMean
    rcases Decidable.em ((losses.filter (fun l => varv ≤ l)).isEmpty) with he | he
    · rw [if_pos he]
    · rw [if_neg he]

/-- C6 counterexample: with the loss sample [1] and threshold 2 no loss
reaches the threshold; the tail mean of Historical.py and MonteCarlo.py is
the undefined numpy mean (none), not the threshold value 2 the claim
requires. -/
theorem cvar_empty_tail_claim_false :
    HistoricalRE.cvar_tail_mean [1] 2 = none
      ∧ HistoricalRE.cvar_tail_mean [1] 2 ≠ some 2 := by
  decide

/-! ## Claim C4: covariance symmetrization, regularization, decomposition

MonteCarlo.monte_carlo_var_cholesky (lines 156-177):
  if not np.allclose(cov, cov.T): cov = (cov + cov.T) / 2
  min_eigenvalue = np.min(np.linalg.eigvals(cov))
  if min_eigenvalue <= 0: cov += (abs(min_eigenvalue) + 1e-8) * np.eye(n)
  try: L = np.linalg.cholesky(cov)
  except np.linalg.LinAlgError:
      eigenvals, eigenvecs = np.linalg.eigh(cov)
      eigenvals = np.maximum(eigenvals, 1e-8)
      L = eigenvecs @ np.diag(np.sqrt(eigenvals))

The eigenvalue minimum np.min(np.linalg.eigvals(cov)) is an oracle value
minEig; the property that characterizes it as a lower bound of the
spectrum of the symmetrized matrix is the Rayleigh bound
minEig·xᵀx ≤ xᵀ·cov·x, taken as the hypothesis of the theorem. -/

namespace MonteCarloChol

/-- Regularization constant 1e-8. -/
def regEps : ℚ := 1 / 100000000

/-- Symmetrization step: cov = (cov + cov.T) / 2 when the matrix fails the
symmetry check, unchanged otherwise. -/
def symmetrizeCov {k : ℕ} (A : Matrix (Fin k) (Fin k) ℚ) : Matrix (Fin k) (Fin k) ℚ :=
  if A = Aᵀ then A else (1 / 2 : ℚ) • (A + Aᵀ)

/-- Regularization step: add (abs(min_eigenvalue) + 1e-8)·I when the minimum
eigenvalue is ≤ 0. -/
def regularizeCov {k : ℕ} (A : Matrix (Fin k) (Fin k) ℚ) (minEig : ℚ) :
    Matrix (Fin k) (Fin k) ℚ :=
  if minEig ≤ 0 then A + (|minEig| + regEps) • (1 : Matrix (Fin k) (Fin k) ℚ) else A

/-- Eigen-based fallback factor eigenvecs @ np.diag(np.sqrt(eigenvals));
sqrtClipped i stands for np.sqrt(max(eigenvals i, 1e-8)). -/
def eigen_fallback_factor {k : ℕ} (E : Matrix (Fin k) (Fin k) ℚ)
    (sqrtClipped : Fin k → ℚ) : Matrix (Fin k) (Fin k) ℚ :=
  E * Matrix.diagonal sqrtClipped

/-- Result of the try/except around np.linalg.cholesky: a successful
factorization yields some L; the except branch substitutes the eigen-based
fallback instead of re-raising the error. -/
def decomposition_factor {k : ℕ} (cholResult : Option (Matrix (Fin k) (Fin k) ℚ))
    (E : Matrix (Fin k) (Fin k) ℚ) (sqrtClipped : Fin k → ℚ) :
    Matrix (Fin k) (Fin k) ℚ :=
  cholResult.getD (eigen_fallback_factor E sqrtClipped)

/-- A rational matrix equal to its transpose is Hermitian (star is trivial
on ℚ). -/
theorem isHermitian_of_transpose_eq {k : ℕ} {A : Matrix (Fin k) (Fin k) ℚ}
    (h : Aᵀ = A) : A.IsHermitian := by
  ext i j
  rw [Matrix.conjTranspose_apply, star_trivial]
  exact congrFun (congrFun h i) j

/-- The symmetrization step returns a symmetric matrix. -/
theorem symmetrizeCov_transpose {k : ℕ} (A : Matrix (Fin k) (Fin k) ℚ) :
    (symmetrizeCov A)ᵀ = symmetrizeCov A := by
  unfold symmetrizeCov
  split_ifs with hAt
  · exact hAt.symm
  · rw [Matrix.transpose_smul, Matrix.transpose_add, Matrix.transpose_transpose,
      add_comm]

/-- The self dot product of a nonzero rational vector is positive. -/
theorem dotProduct_self_pos {k : ℕ} {x : Fin k → ℚ} (hx : x ≠ 0) :
    0 < Matrix.dotProduct x x := by
  obtain ⟨i, hi⟩ : ∃ i, x i ≠ 0 := by
    by_contra hall
    push_neg at hall
    exact hx (funext hall)
  exact Finset.sum_pos' (fun j _ => mul_self_nonneg (x j))
    ⟨i, Finset.mem_univ i, mul_self_pos.mpr hi⟩

end MonteCarloChol

/-- C4: whenever minEig is a Rayleigh lower bound of the symmetrized sample
covariance (as the true minimum eigenvalue is), the matrix produced by the
regularization step is positive definite, i.e. has strictly positive
minimum eigenvalue; and when the Cholesky attempt fails, the decomposition
step returns the eigen-based fallback E·diag(√max(λ, ε)) instead of
escalating an error. -/
theorem covariance_regularization_posdef {k : ℕ} (A : Matrix (Fin k) (Fin k) ℚ)
    (minEig : ℚ) (E : Matrix (Fin k) (Fin k) ℚ) (sqrtClipped : Fin k → ℚ)
    (hray : ∀ x : Fin k → ℚ,
      minEig * Matrix.dotProduct x x
        ≤ Matrix.dotProduct x (MonteCarloChol.symmetrizeCov A *ᵥ x)) :
    (MonteCarloChol.regularizeCov (MonteCarloChol.symmetrizeCov A) minEig).PosDef
      ∧ MonteCarloChol.decomposition_factor none E sqrtClipped
        = MonteCarloChol.eigen_fallback_factor E sqrtClipped := by
  refine ⟨⟨?_, ?_⟩, rfl⟩
  · unfold MonteCarloChol.regularizeCov
    split_ifs
    · refine MonteCarloChol.isHermitian_of_transpose_eq ?_
      rw [Matrix.transpose_add, MonteCarloChol.symmetrizeCov_transpose,
        Matrix.transpose_smul, Matrix.transpose_one]
    · exact MonteCarloChol.isHermitian_of_transpose_eq
        (MonteCarloChol.symmetrizeCov_transpose A)
  · intro x hx
    have hxx := MonteCarloChol.dotProduct_self_pos hx
    have hr := hray x
    have hsx : star x = x := funext fun i => star_trivial (x i)
    rw [hsx]
    unfold MonteCarloChol.regularizeCov
    split_ifs with hmin
    · rw [Matrix.add_mulVec, Matrix.smul_mulVec_assoc, Matrix.one_mulVec,
        Matrix.dotProduct_add, Matrix.dotProduct_smul, smul_eq_mul]
      have habs : |minEig| = -minEig := abs_of_nonpos hmin
      have heps : (0 : ℚ) < MonteCarloChol.regEps := by
        norm_num [MonteCarloChol.regEps]
      nlinarith [hr, hxx]
    · push_neg at hmin
      calc (0 : ℚ) < minEig * Matrix.dotProduct x x := mul_pos hmin hxx
        _ ≤ _ := hr

/-- Witness for C4 at the symmetric indefinite matrix [[0,1],[1,0]] whose
minimum eigenvalue is −1: the Rayleigh bound −(x₀² + x₁²) ≤ 2·x₀·x₁ is
discharged by (x₀ + x₁)² ≥ 0. -/
theorem covariance_regularization_posdef_witness :
    (MonteCarloChol.regularizeCov
        (MonteCarloChol.symmetrizeCov !![(0 : ℚ), 1; 1, 0]) (-1)).PosDef
      ∧ MonteCarloChol.decomposition_factor none (1 : Matrix (Fin 2) (Fin 2) ℚ)
          (fun _ => 1)
        = MonteCarloChol.eigen_fallback_factor (1 : Matrix (Fin 2) (Fin 2) ℚ)
          (fun _ => 1) :=
  covariance_regularization_posdef !![(0 : ℚ), 1; 1, 0] (-1) 1 (fun _ => 1)
    (by
      intro x
      have hsymm : MonteCarloChol.symmetrizeCov !![(0 : ℚ), 1; 1, 0]
          = !![(0 : ℚ), 1; 1, 0] := by
        unfold MonteCarloChol.symmetrizeCov
        rw [if_pos (by decide)]
      rw [hsymm]
      simp [Matrix.dotProduct, Matrix.mulVec, Fin.sum_univ_two]
      nlinarith [sq_nonneg (x 0 + x 1)])

/-! ## Claim C8: normalized portfolio weights sum to one

calculate_portfolio_returns (Historical.py lines 121-133, MonteCarlo.py
lines 128-140, Parametric.py lines 129-141):
  for each portfolio row with symbol present in the price data,
      weights.append(quantity * price)
  weights = np.array(weights); weights = weights / weights.sum()

run_var_analysis (portfolio_var.py lines 353-360):
  portfolio_value = sum(price * quantity for assets)
  portfolio_weights = [value / portfolio_value for value in asset_values]
-/

/-- Portfolio position row: symbol, quantity, price. -/
structure PositionRow where
  symbol : String
  quantity : ℚ
  price : ℚ

namespace PortfolioReturns

/-- Market values of the positions whose symbol appears in the price data
columns. -/
def matched_values (portfolio : List PositionRow) (priceColumns : List String) :
    List ℚ :=
  (portfolio.filter (fun r => r.symbol ∈ priceColumns)).map
    (fun r => r.quantity * r.price)

/-- Normalization weights = values / values.sum(). -/
def normalized_weights (vs : List ℚ) : List ℚ :=
  vs.map (fun v => v / vs.sum)

/-- Weight vector of run_var_analysis in portfolio_var.py. -/
def run_var_analysis_weights (assets : List PositionRow) : List ℚ :=
  normalized_weights (assets.map (fun a => a.price * a.quantity))

/-- Dividing every element of a list by s divides its sum by s. -/
theorem sum_map_div (vs : List ℚ) (s : ℚ) :
    (vs.map (fun v => v / s)).sum = vs.sum / s := by
  induction vs with
  | nil => simp
  | cons x xs ih => simp [ih, add_div]

end PortfolioReturns

/-- C8: for every portfolio whose matched positions have positive total
market value, the normalized weight vector sums to 1 within 1e-9 (it sums
to 1 exactly in exact arithmetic), in both the shared
calculate_portfolio_returns normalization and the run_var_analysis
normalization. -/
theorem normalized_weights_sum_to_one (portfolio : List PositionRow)
    (priceColumns : List String) (assets : List PositionRow)
    (hpos : 0 < (PortfolioReturns.matched_values portfolio priceColumns).sum)
    (hpos2 : 0 < (assets.map (fun a => a.price * a.quantity)).sum) :
    |(PortfolioReturns.normalized_weights
        (PortfolioReturns.matched_values portfolio priceColumns)).sum - 1|
        ≤ 1 / 10 ^ 9
      ∧ |(PortfolioReturns.run_var_analysis_weights assets).sum - 1| ≤ 1 / 10 ^ 9 := by
  have key : ∀ vs : List ℚ, 0 < vs.sum →
      (PortfolioReturns.normalized_weights vs).sum = 1 := by
    intro vs h
    unfold PortfolioReturns.normalized_weights
    rw [PortfolioReturns.sum_map_div, div_self (ne_of_gt h)]
  constructor
  · rw [key _ hpos]
    norm_num
  · rw [PortfolioReturns.run_var_analysis_weights, key _ hpos2]
    norm_num

/-- Witness for C8 on a two-position portfolio fully covered by the price
data. -/
theorem normalized_weights_sum_to_one_witness :
    |(PortfolioReturns.normalized_weights
        (PortfolioReturns.matched_values
          [⟨"AAPL", 2, 5⟩, ⟨"MSFT", 1, 10⟩] ["AAPL", "MSFT"])).sum - 1|
        ≤ 1 / 10 ^ 9
      ∧ |(PortfolioReturns.run_var_analysis_weights
          [⟨"AAPL", 2, 5⟩, ⟨"MSFT", 1, 10⟩]).sum - 1| ≤ 1 / 10 ^ 9 :=
  normalized_weights_sum_to_one [⟨"AAPL", 2, 5⟩, ⟨"MSFT", 1, 10⟩]
    ["AAPL", "MSFT"] [⟨"AAPL", 2, 5⟩, ⟨"MSFT", 1, 10⟩]
    (by norm_num [PortfolioReturns.matched_values, List.filter])
    (by norm_num)

/-! ## Stress test calculator, src/server/stress_test_calculator.py

StressTestCalculator.calculate_asset_impact (lines 86-197),
_calculate_correlation_adjustment (lines 199-211) and the aggregation in
calculate_portfolio_impact (lines 213-358). Dictionary reads through
.get(key, default) are modelled by Option fields with Option.getD. -/

namespace StressTest

/-- Scenario factor dictionary with its six factor shocks. -/
structure Factors where
  equity : ℚ
  rates : ℚ
  credit : ℚ
  fx : ℚ
  commodity : ℚ
  volatility : ℚ

/-- Sensitivity record; keys absent from the Python dict are none. -/
structure Sens where
  equity_beta : Option ℚ := none
  rates_sensitivity : Option ℚ := none
  credit_sensitivity : Option ℚ := none
  duration : Option ℚ := none
  commodity_beta : Option ℚ := none
  inflation_sensitivity : Option ℚ := none
  fx_sensitivity : Option ℚ := none

/-- Equity-style sensitivity entry {equity_beta, rates_sensitivity,
credit_sensitivity}. -/
def mkEquitySens (b r c : ℚ) : Sens :=
  { equity_beta := some b, rates_sensitivity := some r,
    credit_sensitivity := some c }

/-- Bond-style sensitivity entry {duration, credit_sensitivity,
rates_sensitivity}. -/
def mkBondSens (d c r : ℚ) : Sens :=
  { duration := some d, credit_sensitivity := some c,
    rates_sensitivity := some r }

/-- Commodity-style sensitivity entry {commodity_beta,
inflation_sensitivity, fx_sensitivity}. -/
def mkCommoditySens (b i f : ℚ) : Sens :=
  { commodity_beta := some b, inflation_sensitivity := some i,
    fx_sensitivity := some f }

/-- The cash sensitivity entry {rates_sensitivity, credit_sensitivity,
equity_beta}. -/
def cashSens : Sens :=
  { rates_sensitivity := some (1/10), credit_sensitivity := some 0,
    equity_beta := some 0 }

/-- The asset sensitivity database initialized in
_initialize_asset_sensitivities (lines 36-74). -/
def asset_sensitivities : String → String → Option Sens
  | "equity", "Technology" => some (mkEquitySens (13/10) (-(8/10)) (4/10))
  | "equity", "Healthcare" => some (mkEquitySens (9/10) (-(3/10)) (2/10))
  | "equity", "Financial" => some (mkEquitySens (14/10) (6/10) (8/10))
  | "equity", "Consumer Discretionary" => some (mkEquitySens (16/10) (-(9/10)) (5/10))
  | "equity", "Consumer Staples" => some (mkEquitySens (7/10) (-(2/10)) (1/10))
  | "equity", "Energy" => some (mkEquitySens (12/10) (3/10) (6/10))
  | "equity", "Materials" => some (mkEquitySens (11/10) (2/10) (4/10))
  | "equity", "Industrials" => some (mkEquitySens 1 (-(1/10)) (3/10))
  | "equity", "Utilities" => some (mkEquitySens (6/10) (-(7/10)) (1/10))
  | "equity", "Real Estate" => some (mkEquitySens 1 (-(12/10)) (4/10))
  | "equity", "Telecommunications" => some (mkEquitySens (8/10) (-(5/10)) (2/10))
  | "equity", "Diversified" => some (mkEquitySens 1 (-(4/10)) (3/10))
  | "bond", "Government Bonds" => some (mkBondSens 7 0 1)
  | "bond", "Corporate Bonds" => some (mkBondSens 5 (8/10) (9/10))
  | "bond", "High Yield" => some (mkBondSens 4 (15/10) (7/10))
  | "bond", "Municipal Bonds" => some (mkBondSens 6 (3/10) (9/10))
  | "bond", "Treasury Bills" => some (mkBondSens (1/4) 0 1)
  | "bond", "Fixed Income" => some (mkBondSens 6 (4/10) (95/100))
  | "commodity", "Precious Metals" => some (mkCommoditySens 1 (8/10) (-(6/10)))
  | "commodity", "Energy" => some (mkCommoditySens (15/10) (12/10) (-(4/10)))
  | "commodity", "Agriculture" => some (mkCommoditySens (8/10) (6/10) (-(3/10)))
  | "commodity", "Industrial Metals" => some (mkCommoditySens (12/10) (7/10) (-(5/10)))
  | "commodity", "Commodities" => some (mkCommoditySens 1 (8/10) (-(5/10)))
  | "reit", "Real Estate" => some (mkEquitySens 1 (-(15/10)) (6/10))
  | "cash", "Cash" => some cashSens
  | _, _ => none

/-- Default sensitivities (line 109). -/
def defaultSens : Sens :=
  { equity_beta := some 1, rates_sensitivity := some (-(4/10)),
    credit_sensitivity := some (3/10) }

/-- Sensitivity lookup (lines 103-109): (assetType, assetClass), then
(assetType, sector), then the type-agnostic default. -/
def sensLookup (assetType assetClass sector : String) : Sens :=
  match asset_sensitivities assetType assetClass with
  | some s => s
  | none =>
    match asset_sensitivities assetType sector with
    | some s => s
    | none => defaultSens

/-- Factor-specific impacts per asset type (lines 111-162). -/
structure FactorImpacts where
  equity : ℚ
  rates : ℚ
  credit : ℚ
  fx : ℚ
  commodity : ℚ

/-- The per-type factor impact branches of calculate_asset_impact. -/
def factor_impacts (assetType : String) (s : Sens) (f : Factors) : FactorImpacts :=
  if assetType = "equity" then
    { equity := f.equity / 100 * s.equity_beta.getD 1
      rates := f.rates / 10000 * s.rates_sensitivity.getD (-(4/10))
      credit := f.credit / 10000 * s.credit_sensitivity.getD (3/10)
      fx := 0, commodity := 0 }
  else if assetType = "bond" then
    { equity := f.equity / 100 * (1/10)
      rates := -(f.rates / 10000) * s.duration.getD 5
      credit := -(f.credit / 10000) * s.credit_sensitivity.getD (1/2)
      fx := 0, commodity := 0 }
  else if assetType = "commodity" then
    { equity := 0, rates := 0, credit := 0
      fx := f.fx / 100 * s.fx_sensitivity.getD (-(1/2))
      commodity := f.commodity / 100 * s.commodity_beta.getD 1 }
  else if assetType = "reit" then
    { equity := f.equity / 100 * s.equity_beta.getD 1
      rates := f.rates / 10000 * s.rates_sensitivity.getD (-(3/2))
      credit := f.credit / 10000 * s.credit_sensitivity.getD (3/5)
      fx := 0, commodity := 0 }
  else if assetType = "cash" then
    { equity := 0, rates := f.rates / 10000 * (1/10), credit := 0,
      fx := 0, commodity := 0 }
  else
    { equity := 0, rates := 0, credit := 0, fx := 0, commodity := 0 }

/-- The values iterated by scenario_factors.items() in
_calculate_correlation_adjustment: all six entries, volatility included. -/
def factor_values (f : Factors) : List ℚ :=
  [f.equity, f.rates, f.credit, f.fx, f.commodity, f.volatility]

/-- _calculate_correlation_adjustment (lines 199-211); the asset type is a
parameter of the Python method but is never read. -/
def correlation_adjustment (f : Factors) (_assetType : String) : ℚ :=
  let active := (factor_values f).filter (fun v => 1/10 < |v|)
  if 1 < active.length then -(1/20) * ((active.length : ℚ) - 1) else 0

/-- Asset fields read by calculate_asset_impact. -/
structure StressAsset where
  assetType : String
  assetClass : String
  sector : String
  value : ℚ

/-- Output fields of calculate_asset_impact the claims talk about. -/
structure ImpactResult where
  current_value : ℚ
  stressed_value : ℚ
  impact_value : ℚ
  impact_percent : ℚ

/-- calculate_asset_impact (lines 86-197); rand stands for the unseeded
np.random.normal(0, 1) draw of line 176. -/
def calculate_asset_impact (a : StressAsset) (f : Factors) (rand : ℚ) :
    ImpactResult :=
  let s := sensLookup a.assetType a.assetClass a.sector
  let fi := factor_impacts a.assetType s f
  let adj := correlation_adjustment f a.assetType
  let tip := (fi.equity + fi.rates + fi.credit + fi.fx + fi.commodity) * (1 + adj)
      + |f.volatility| / 100 * (1/10) * rand * (1/10)
  let stressed := a.value * (1 + tip)
  { current_value := a.value
    stressed_value := stressed
    impact_value := stressed - a.value
    impact_percent := tip * 100 }

/-- The all-zero stress scenario. -/
def zeroFactors : Factors := ⟨0, 0, 0, 0, 0, 0⟩

/-- Sum of current values in calculate_portfolio_impact; each asset is
paired with its own volatility perturbation draw. -/
def total_current_value (assets : List (StressAsset × ℚ)) (f : Factors) : ℚ :=
  (assets.map (fun p => (calculate_asset_impact p.1 f p.2).current_value)).sum

/-- Sum of stressed values in calculate_portfolio_impact. -/
def total_stressed_value (assets : List (StressAsset × ℚ)) (f : Factors) : ℚ :=
  (assets.map (fun p => (calculate_asset_impact p.1 f p.2).stressed_value)).sum

end StressTest

/-- C9: under the all-zero stress scenario every asset has zero impact
percent and zero impact value, and the portfolio-level total impact
(total stressed value minus total current value) is zero, for every
portfolio and for every value of the unseeded volatility draw. -/
theorem zero_scenario_zero_impact (a : StressTest.StressAsset) (rand : ℚ)
    (assets : List (StressTest.StressAsset × ℚ)) :
    (StressTest.calculate_asset_impact a StressTest.zeroFactors rand).impact_percent = 0
      ∧ (StressTest.calculate_asset_impact a StressTest.zeroFactors rand).impact_value = 0
      ∧ StressTest.total_stressed_value assets StressTest.zeroFactors
          - StressTest.total_current_value assets StressTest.zeroFactors = 0 := by
  have key : ∀ (b : StressTest.StressAsset) (r : ℚ),
      (StressTest.calculate_asset_impact b StressTest.zeroFactors r).impact_percent = 0
        ∧ (StressTest.calculate_asset_impact b StressTest.zeroFactors r).impact_value = 0
        ∧ (StressTest.calculate_asset_impact b StressTest.zeroFactors r).stressed_value
            = (StressTest.calculate_asset_impact b StressTest.zeroFactors r).current_value := by
    intro b r
    unfold StressTest.calculate_asset_impact StressTest.factor_impacts
      StressTest.zeroFactors
    split_ifs <;> norm_num
  refine ⟨(key a rand).1, (key a rand).2.1, ?_⟩
  unfold StressTest.total_stressed_value StressTest.total_current_value
  rw [List.map_congr_left fun p _ => (key p.1 p.2).2.2]
  exact sub_self _

/-- C10: the volatility shock counts toward the active-factor count of the
correlation adjustment. Whenever the volatility shock exceeds 0.1 in
absolute value and exactly one of the five direct factor shocks does, the
adjustment is −0.05·(2 − 1) = −0.05, even though volatility contributes no
direct factor-impact term. -/
theorem volatility_counts_as_active_factor (f : StressTest.Factors)
    (assetType : String) (hvol : 1/10 < |f.volatility|)
    (hone : ([f.equity, f.rates, f.credit, f.fx, f.commodity].filter
        (fun v => 1/10 < |v|)).length = 1) :
    StressTest.correlation_adjustment f assetType = -(1/20) := by
  unfold StressTest.correlation_adjustment StressTest.factor_values
  have hsplit : [f.equity, f.rates, f.credit, f.fx, f.commodity, f.volatility]
      = [f.equity, f.rates, f.credit, f.fx, f.commodity] ++ [f.volatility] := rfl
  rw [hsplit, List.filter_append]
  have hv1 : ([f.volatility].filter (fun v => 1/10 < |v|)).length = 1 := by
    have hvol2 : (10 : ℚ)⁻¹ < |f.volatility| := by simpa [one_div] using hvol
    simp [List.filter_cons, hvol2]
  simp only [List.length_append, hone, hv1]
  norm_num

/-- Witness for C10: equity shock −20 (one active direct factor) together
with volatility shock 25 yields the adjustment −0.05. -/
theorem volatility_counts_as_active_factor_witness :
    StressTest.correlation_adjustment ⟨-20, 0, 0, 0, 0, 25⟩ "equity" = -(1/20) :=
  volatility_counts_as_active_factor ⟨-20, 0, 0, 0, 0, 25⟩ "equity"
    (by norm_num) (by norm_num [List.filter_cons])

end RiskReport
